import Mathlib

/-!
Shallow embedding of the 302ai image MCP server (`src/index.ts`).

The program is a single-file MCP server that routes `list_tools` /
`call_tool` requests to an upstream HTTP API.  We embed:

* a JSON value model and `JSON.stringify` (compact and 2-space indented),
  needed for the response envelope and the log format;
* the credential resolver inside `getApiInstance` (JS `||` truthiness chain);
* the cached `AI302Api` instance (`this.api`), tracked with a construction
  counter so that "exactly one new instance is constructed" is observable;
* the two upstream operations `listTools` / `callTool` of class `AI302Api`,
  parametrised by the outcome of the external `fetch` call;
* the two request handlers registered in `setupToolHandlers`;
* the `Logger` class (log lines mirrored to console, file append may fail);
* the transport selection in `run()` together with the start parameters.

External collaborators (the MCP SDK, `fetch`, the filesystem) are modelled
by their observable behaviour: `fetch` becomes an explicit `FetchResult`
argument, `McpError` becomes a structured error value, the file append
becomes a flag saying whether the append succeeds.
-/

/-- JSON values, as decoded by `response.json()` and produced by
`JSON.stringify`.  Numbers are modelled as integers (every number the
program manipulates in the claims is an integer). -/
inductive Json where
  | null
  | bool (b : Bool)
  | num (n : Int)
  | str (s : String)
  | arr (elems : List Json)
  | obj (fields : List (String × Json))

/-- Hex digit for `\u00XX` escapes. -/
def hexDigit (n : Nat) : String :=
  if n < 10 then toString n
  else if n = 10 then "a" else if n = 11 then "b" else if n = 12 then "c"
  else if n = 13 then "d" else if n = 14 then "e" else "f"

/-- JSON escaping of one character, as in `JSON.stringify` string output. -/
def escChar (c : Char) : String :=
  if c = Char.ofNat 34 then "\\\""
  else if c = Char.ofNat 92 then "\\\\"
  else if c = Char.ofNat 10 then "\\n"
  else if c = Char.ofNat 13 then "\\r"
  else if c = Char.ofNat 9 then "\\t"
  else if c = Char.ofNat 8 then "\\b"
  else if c = Char.ofNat 12 then "\\f"
  else if c.toNat < 32 then
    "\\u00" ++ hexDigit (c.toNat / 16) ++ hexDigit (c.toNat % 16)
  else String.singleton c

/-- JSON string literal: quote and escape. -/
def jsonQuote (s : String) : String :=
  "\"" ++ String.join (s.data.map escChar) ++ "\""

mutual

/-- Compact `JSON.stringify(v)` (no indent argument), used by the logger's
`formatMessage`. -/
def jsonStringify : Json → String
  | .null => "null"
  | .bool b => if b then "true" else "false"
  | .num n => toString n
  | .str s => jsonQuote s
  | .arr elems => "[" ++ jsonStringifyList elems ++ "]"
  | .obj fields => "\x7b" ++ jsonStringifyFields fields ++ "\x7d"

/-- Comma-joined compact serialisation of array elements. -/
def jsonStringifyList : List Json → String
  | [] => ""
  | [v] => jsonStringify v
  | v :: rest => jsonStringify v ++ "," ++ jsonStringifyList rest

/-- Comma-joined compact serialisation of object fields. -/
def jsonStringifyFields : List (String × Json) → String
  | [] => ""
  | [(k, v)] => jsonQuote k ++ ":" ++ jsonStringify v
  | (k, v) :: rest =>
      jsonQuote k ++ ":" ++ jsonStringify v ++ "," ++ jsonStringifyFields rest

end

mutual

/-- Indented `JSON.stringify(v, null, 2)`: 2-space indented serialisation.  `ind` is
the indentation prefix of the current nesting level. -/
def jsonStringify2At (ind : String) : Json → String
  | .null => "null"
  | .bool b => if b then "true" else "false"
  | .num n => toString n
  | .str s => jsonQuote s
  | .arr elems =>
      match elems with
      | [] => "[]"
      | _ :: _ =>
          "[\n" ++ jsonStringify2List (ind ++ "  ") elems ++ "\n" ++ ind ++ "]"
  | .obj fields =>
      match fields with
      | [] => "\x7b\x7d"
      | _ :: _ =>
          "\x7b\n" ++ jsonStringify2Fields (ind ++ "  ") fields ++ "\n" ++
            ind ++ "\x7d"

/-- Indented array items joined by `,\n`. -/
def jsonStringify2List (ind : String) : List Json → String
  | [] => ""
  | [v] => ind ++ jsonStringify2At ind v
  | v :: rest =>
      ind ++ jsonStringify2At ind v ++ ",\n" ++ jsonStringify2List ind rest

/-- Indented object entries `"k": v` joined by `,\n`. -/
def jsonStringify2Fields (ind : String) : List (String × Json) → String
  | [] => ""
  | [(k, v)] => ind ++ jsonQuote k ++ ": " ++ jsonStringify2At ind v
  | (k, v) :: rest =>
      ind ++ jsonQuote k ++ ": " ++ jsonStringify2At ind v ++ ",\n" ++
        jsonStringify2Fields ind rest

end

/-- Top-level `JSON.stringify(v, null, 2)`. -/
def jsonStringify2 (v : Json) : String := jsonStringify2At "" v

/-- JS property access `o.k` on a decoded JSON value: `some` the field value
when `o` is an object carrying the field, otherwise `none` (JS `undefined`). -/
def getField (v : Json) (k : String) : Option Json :=
  match v with
  | .obj fields => (fields.find? (fun f => f.1 = k)).map (·.2)
  | _ => none

example : jsonStringify2 (Json.obj [("content", Json.obj [("result", Json.str "ok")])]) =
    "\x7b\n  \"content\": \x7b\n    \"result\": \"ok\"\n  \x7d\n\x7d" := by decide

/-- An inbound MCP request, reduced to what `index.ts` reads from it: the
authenticated values consulted by the external `getAuthValue` helper, and
(for `call_tool`) `request.params.name` and `request.params.arguments`. -/
structure Request where
  auth : List (String × String)
  name : String
  args : Json

/-- Models the external `getAuthValue(request, key)` from `@chatmcp/sdk`:
extracts the authenticated value of that name from the request, `none`
(JS `undefined`) when the request does not carry one. -/
def getAuthValue (r : Request) (k : String) : Option String :=
  (r.auth.find? (fun p => p.1 = k)).map (fun p => p.2)

/-- JS truthiness filter on an optional string: `undefined` and the empty
string are falsy, every other string is truthy.  `jsTruthy v = some s` iff
the JS value behind `v` is a truthy string `s`. -/
def jsTruthy (v : Option String) : Option String :=
  match v with
  | some s => if s = "" then none else some s
  | none => none

/-- The credential resolution chain of `getApiInstance` (index.ts 223-226):
`ai302ApiKey || (request && getAuthValue(request, "302AI_API_KEY")) ||
process.env["302AI_API_KEY"]`, combined with the `if (!apiKey)` test on
line 228: the result is `none` exactly when the chain yields a falsy value
(so the handler throws), otherwise the first truthy candidate. -/
def resolveApiKey (startKey : Option String) (request : Option Request)
    (envKey : Option String) : Option String :=
  (jsTruthy startKey).orElse fun _ =>
    (jsTruthy (request.bind fun r => getAuthValue r "302AI_API_KEY")).orElse fun _ =>
      jsTruthy envKey

/-- Code `ErrorCode.InternalError` of the MCP SDK. -/
def errInternalError : Int := -32603

/-- Code `ErrorCode.InvalidParams` of the MCP SDK. -/
def errInvalidParams : Int := -32602

/-- A thrown JS error as observed by the program: either an `McpError`
(code plus message) or some other exception (TypeError, network failure,
JSON parse failure) of which only the message is observed. -/
inductive JsError where
  | mcp (code : Int) (msg : String)
  | jsexn (msg : String)

/-- The `.message` property of a thrown error.  `McpError`'s constructor
(in the MCP SDK) builds the `Error` message as
`MCP error <code>: <message>`. -/
def JsError.message : JsError → String
  | .mcp code msg => "MCP error " ++ toString code ++ ": " ++ msg
  | .jsexn msg => msg

/-- One logger invocation: the level and the arguments passed to
`logger.info` / `logger.error` / `logger.debug`. -/
structure LogEntry where
  level : String
  message : String
  data : Option Json

/-- Method `Logger.formatMessage` (index.ts 41-45); the timestamp is taken as an
argument since `new Date().toISOString()` is ambient. -/
def formatMessage (timestamp level message : String) (data : Option Json) :
    String :=
  let logMessage := "[" ++ timestamp ++ "] [" ++ level ++ "] " ++ message
  match data with
  | some d => logMessage ++ " " ++ jsonStringify d
  | none => logMessage

/-- A cached `AI302Api` instance: its private `apiKey`, plus a construction
serial number (not in the source) that makes "a new instance was
constructed" observable. -/
structure ApiInst where
  apiKey : String
  ctorId : Nat

/-- Process-wide configuration read by the program: the process-start key
`getParamValue("302ai_api_key")`, the environment variable
`process.env["302AI_API_KEY"]`, and the upstream base URL. -/
structure Config where
  startKey : Option String
  envKey : Option String
  baseUrl : String

/-- One HTTP request issued through `fetch`: the URL, the method, and the
credential presented in the `Authorization: Bearer` header (`callTool`
additionally repeats it in `x-api-key`). -/
structure SentReq where
  url : String
  method : String
  authKey : String

/-- The mutable world threaded through the embedding: the cached instance
`this.api`, a construction counter, the list of logger invocations, the
log file contents, the console output, the HTTP requests issued so far,
whether `fs.appendFileSync` succeeds (and the error message when it does
not), and the ambient timestamp. -/
structure St where
  api : Option ApiInst
  ctorCount : Nat
  entries : List LogEntry
  fileLines : List String
  console : List String
  sent : List SentReq
  diskOk : Bool
  diskErr : String
  now : String

/-- Method `Logger.writeLog` (index.ts 47-53): append to the log file; when the
append throws, catch and report to the console only. -/
def writeLog (s : St) (message : String) : St :=
  if s.diskOk then { s with fileLines := s.fileLines ++ [message ++ "\n"] }
  else { s with console := s.console ++ ["Failed to write log: " ++ s.diskErr] }

/-- Common body of `Logger.info` / `Logger.error` / `Logger.debug`: format,
mirror to console, attempt the file write; also records the structured
invocation in `entries`. -/
def logAt (level message : String) (data : Option Json) (s : St) : St :=
  let logMessage := formatMessage s.now level message data
  let s1 := { s with console := s.console ++ [logMessage],
                     entries := s.entries ++ [⟨level, message, data⟩] }
  writeLog s1 logMessage

/-- Method `logger.info`. -/
def logInfo (message : String) (data : Option Json) (s : St) : St :=
  logAt "INFO" message data s

/-- Method `logger.error`. -/
def logError (message : String) (data : Option Json) (s : St) : St :=
  logAt "ERROR" message data s

/-- Method `logger.debug`. -/
def logDebug (message : String) (data : Option Json) (s : St) : St :=
  logAt "DEBUG" message data s

/-- The `AI302Api` constructor (index.ts 81-84): record the key, log.  The
construction counter is bumped so constructions are countable. -/
def newAI302Api (cfg : Config) (apiKey : String) (s : St) : ApiInst × St :=
  let inst : ApiInst := ⟨apiKey, s.ctorCount⟩
  let s1 := { s with ctorCount := s.ctorCount + 1 }
  let s2 := logInfo "AI302Api initialized"
    (some (Json.obj [("baseUrl", Json.str cfg.baseUrl)])) s1
  (inst, s2)

/-- Method `getApiInstance` (index.ts 222-242): resolve the key, fail when falsy,
reuse the cached instance when its key matches, otherwise construct a
replacement. -/
def getApiInstance (cfg : Config) (request : Option Request) (s : St) :
    Except JsError ApiInst × St :=
  match resolveApiKey cfg.startKey request cfg.envKey with
  | none =>
      let s1 := logError "API key is missing" none s
      (.error (.mcp errInvalidParams "API key is required to call the tool"), s1)
  | some apiKey =>
      match s.api with
      | some inst =>
          if inst.apiKey = apiKey then (.ok inst, s)
          else
            let s1 := logDebug "Creating new API instance" none s
            let (inst2, s2) := newAI302Api cfg apiKey s1
            (.ok inst2, { s2 with api := some inst2 })
      | none =>
          let s1 := logDebug "Creating new API instance" none s
          let (inst2, s2) := newAI302Api cfg apiKey s1
          (.ok inst2, { s2 with api := some inst2 })

/-- An upstream HTTP response as the program observes it: status, status
text, the body as text (`response.text()`), and the result of parsing the
body as JSON (`response.json()`, which rejects with a message on a
malformed body). -/
structure HttpResponse where
  status : Nat
  statusText : String
  bodyText : String
  jsonResult : Except String Json

/-- Field `response.ok` per the fetch specification: status in [200, 300). -/
def responseOk (r : HttpResponse) : Bool :=
  decide (200 ≤ r.status) && decide (r.status < 300)

/-- Outcome of the external `fetch` call: rejection with an error message
(network failure), or a response. -/
inductive FetchResult where
  | netError (msg : String)
  | response (r : HttpResponse)

/-- URL built by `AI302Api.listTools` (index.ts 91-93): the listing path
with the two fixed query parameters. -/
def listToolsUrl (cfg : Config) : String :=
  cfg.baseUrl ++ "/v1/tool/list?packId=imageTools&user302=user302"

/-- The `toolsCount: v.length` field as serialised by the logger: arrays
and strings have a `length`; on other values the access yields
`undefined` and `JSON.stringify` drops the field. -/
def jsLengthField (v : Json) : List (String × Json) :=
  match v with
  | .arr elems => [("toolsCount", .num (elems.length : Int))]
  | .str s => [("toolsCount", .num (s.length : Int))]
  | _ => []

/-- Method `AI302Api.listTools` (index.ts 90-129).  The whole body sits in a
`try` whose `catch` rethrows any error as
`McpError(InternalError, "Failed to fetch tools: " + err.message)` — this
also catches the `McpError` thrown for a non-success status.  On a success
status the code reads `data.tools.length` for the log line (a TypeError
when `data.tools` is `undefined` or `null`) and returns `data.tools`. -/
def apiListTools (cfg : Config) (inst : ApiInst) (fr : FetchResult) (s : St) :
    Except JsError Json × St :=
  let s0 := logDebug "Fetching tools list"
    (some (.obj [("url", .str (listToolsUrl cfg))])) s
  let s0 := { s0 with
    sent := s0.sent ++ [⟨listToolsUrl cfg, "GET", inst.apiKey⟩] }
  let tryResult : Except JsError Json × St :=
    match fr with
    | .netError m => (.error (.jsexn m), s0)
    | .response r =>
        if !(responseOk r) then
          let s1 := logError "Failed to fetch tools list"
            (some (.obj [("status", .num (r.status : Int)),
                         ("statusText", .str r.statusText),
                         ("error", .str r.bodyText)])) s0
          (.error (.mcp errInternalError
            ("HTTP " ++ toString r.status ++ ": " ++ r.statusText)), s1)
        else
          match r.jsonResult with
          | .error m => (.error (.jsexn m), s0)
          | .ok data =>
              match getField data "tools" with
              | none =>
                  (.error (.jsexn
                    "Cannot read properties of undefined (reading 'length')"), s0)
              | some .null =>
                  (.error (.jsexn
                    "Cannot read properties of null (reading 'length')"), s0)
              | some tools =>
                  let s1 := logInfo "Successfully fetched tools list"
                    (some (.obj (jsLengthField tools))) s0
                  (.ok tools, s1)
  match tryResult with
  | (.ok v, s1) => (.ok v, s1)
  | (.error e, s1) =>
      let s2 := logError "Tools list fetch exception"
        (some (.obj [("error", .str e.message)])) s1
      (.error (.mcp errInternalError ("Failed to fetch tools: " ++ e.message)), s2)

/-- Method `AI302Api.callTool` (index.ts 131-176).  Same `try`/`catch` shape as
`listTools` with the prefix `Tool call failed: `; on success the decoded
body is returned verbatim. -/
def apiCallTool (cfg : Config) (inst : ApiInst) (name : String) (args : Json)
    (fr : FetchResult) (s : St) : Except JsError Json × St :=
  let s0 := logDebug "Calling tool"
    (some (.obj [("name", .str name), ("arguments", args)])) s
  let requestBody := Json.obj [("nameOrId", .str name), ("arguments", args)]
  let s0 := logDebug "Request body" (some (.obj [("body", requestBody)])) s0
  let s0 := { s0 with
    sent := s0.sent ++ [⟨cfg.baseUrl ++ "/v1/tool/call", "POST", inst.apiKey⟩] }
  let tryResult : Except JsError Json × St :=
    match fr with
    | .netError m => (.error (.jsexn m), s0)
    | .response r =>
        if !(responseOk r) then
          let s1 := logError "Tool call failed"
            (some (.obj [("name", .str name),
                         ("status", .num (r.status : Int)),
                         ("statusText", .str r.statusText),
                         ("error", .str r.bodyText)])) s0
          (.error (.mcp errInternalError
            ("HTTP " ++ toString r.status ++ ": " ++ r.statusText)), s1)
        else
          match r.jsonResult with
          | .error m => (.error (.jsexn m), s0)
          | .ok data =>
              let s1 := logInfo "Tool called successfully"
                (some (.obj [("name", .str name)])) s0
              (.ok data, s1)
  match tryResult with
  | (.ok v, s1) => (.ok v, s1)
  | (.error e, s1) =>
      let s2 := logError "Tool call exception"
        (some (.obj [("name", .str name), ("error", .str e.message)])) s1
      (.error (.mcp errInternalError ("Tool call failed: " ++ e.message)), s2)

/-- The `call_tool` response envelope built on index.ts 267-274. -/
def mcpTextEnvelope (text : String) : Json :=
  Json.obj [("content",
    Json.arr [Json.obj [("type", Json.str "text"), ("text", Json.str text)]])]

/-- The `ListToolsRequestSchema` handler (index.ts 245-254): resolve the
instance, enumerate, return `{ tools }`.  No `try`/`catch`: resolver and
client failures pass through. -/
def handleListTools (cfg : Config) (request : Option Request)
    (fr : FetchResult) (s : St) : Except JsError Json × St :=
  let s0 := logDebug "Handling list tools request" none s
  match getApiInstance cfg request s0 with
  | (.error e, s1) => (.error e, s1)
  | (.ok api, s1) =>
      match apiListTools cfg api fr s1 with
      | (.error e, s2) => (.error e, s2)
      | (.ok tools, s2) =>
          let s3 := logInfo "List tools request completed"
            (some (.obj (jsLengthField tools))) s2
          (.ok (.obj [("tools", tools)]), s3)

/-- The `CallToolRequestSchema` handler (index.ts 256-275): resolve the
instance, invoke, wrap the result as a text content item holding
`JSON.stringify({ content }, null, 2)`.  No `try`/`catch`: resolver and
client failures pass through. -/
def handleCallTool (cfg : Config) (request : Request) (fr : FetchResult)
    (s : St) : Except JsError Json × St :=
  let s0 := logDebug "Handling call tool request"
    (some (.obj [("toolName", .str request.name)])) s
  match getApiInstance cfg (some request) s0 with
  | (.error e, s1) => (.error e, s1)
  | (.ok api, s1) =>
      match apiCallTool cfg api request.name request.args fr s1 with
      | (.error e, s2) => (.error e, s2)
      | (.ok content, s2) =>
          let s3 := logInfo "Call tool request completed"
            (some (.obj [("toolName", .str request.name)])) s2
          (.ok (mcpTextEnvelope
            (jsonStringify2 (Json.obj [("content", content)]))), s3)

/-- The raw start parameters read via `getParamValue` (index.ts 18-21);
`none` models an absent parameter. -/
structure StartParams where
  modeParam : Option String
  portParam : Option String
  endpointParam : Option String

/-- Operator `x || d` of JS for a string default. -/
def jsOrStr (v : Option String) (d : String) : String :=
  match jsTruthy v with
  | some s => s
  | none => d

/-- The value of `const port` (index.ts 20): a string when the parameter
was supplied and truthy, the number 9593 otherwise. -/
inductive PortValue where
  | num (n : Int)
  | str (s : String)

/-- Line `const mode = getParamValue("mode") || "stdio"`. -/
def effMode (p : StartParams) : String := jsOrStr p.modeParam "stdio"

/-- Line `const port = getParamValue("port") || 9593`. -/
def effPort (p : StartParams) : PortValue :=
  match jsTruthy p.portParam with
  | some s => .str s
  | none => .num 9593

/-- Line `const endpoint = getParamValue("endpoint") || "/rest"`. -/
def effEndpoint (p : StartParams) : String := jsOrStr p.endpointParam "/rest"

/-- Conversion `Number(port)` as applied on index.ts 286, modelled for numbers and
decimal digit strings (`none` is NaN; the empty string converts to 0). -/
def jsToNumber : PortValue → Option Int
  | .num n => some n
  | .str s =>
      if s = "" then some 0
      else (s.toNat?).map Int.ofNat

/-- The transport selected by `run()`: exactly one of the two variants, a
REST transport carrying the port and endpoint it is bound to, or the
stdio transport. -/
inductive Transport where
  | rest (port : Option Int) (endpoint : String)
  | stdio

/-- Method `run()` (index.ts 278-303): when `mode === "rest"`, construct and
start a `RestServerTransport` on `Number(port)` and `endpoint` and
return; otherwise connect a `StdioServerTransport`. -/
def runTransport (mode : String) (port : PortValue) (endpoint : String) :
    Transport :=
  if mode = "rest" then .rest (jsToNumber port) endpoint else .stdio

/-!
Closed forms for the caller-visible component of each operation.  The
`Except` component of every operation is determined by the configuration,
the request, the fetch outcome and the cached-instance part of the state;
the lemmas below compute it once so the claim proofs can reuse it.
-/

/-- Caller-visible outcome of `getApiInstance`, as a function of the cached
instance and the construction counter only. -/
def getApiOutcome (cfg : Config) (request : Option Request)
    (api : Option ApiInst) (cnt : Nat) : Except JsError ApiInst :=
  match resolveApiKey cfg.startKey request cfg.envKey with
  | none => .error (.mcp errInvalidParams "API key is required to call the tool")
  | some k =>
      match api with
      | some inst => if inst.apiKey = k then .ok inst else .ok ⟨k, cnt⟩
      | none => .ok ⟨k, cnt⟩

/-- Caller-visible outcome of `AI302Api.listTools` as a function of the
fetch outcome alone. -/
def listToolsOutcome (fr : FetchResult) : Except JsError Json :=
  match fr with
  | .netError m =>
      .error (.mcp errInternalError ("Failed to fetch tools: " ++ m))
  | .response r =>
      if !(responseOk r) then
        .error (.mcp errInternalError ("Failed to fetch tools: " ++
          JsError.message (.mcp errInternalError
            ("HTTP " ++ toString r.status ++ ": " ++ r.statusText))))
      else
        match r.jsonResult with
        | .error m =>
            .error (.mcp errInternalError ("Failed to fetch tools: " ++ m))
        | .ok data =>
            match getField data "tools" with
            | none =>
                .error (.mcp errInternalError ("Failed to fetch tools: " ++
                  "Cannot read properties of undefined (reading 'length')"))
            | some .null =>
                .error (.mcp errInternalError ("Failed to fetch tools: " ++
                  "Cannot read properties of null (reading 'length')"))
            | some tools => .ok tools

/-- Caller-visible outcome of `AI302Api.callTool` as a function of the
fetch outcome alone. -/
def callToolOutcome (fr : FetchResult) : Except JsError Json :=
  match fr with
  | .netError m =>
      .error (.mcp errInternalError ("Tool call failed: " ++ m))
  | .response r =>
      if !(responseOk r) then
        .error (.mcp errInternalError ("Tool call failed: " ++
          JsError.message (.mcp errInternalError
            ("HTTP " ++ toString r.status ++ ": " ++ r.statusText))))
      else
        match r.jsonResult with
        | .error m =>
            .error (.mcp errInternalError ("Tool call failed: " ++ m))
        | .ok data => .ok data

theorem writeLog_api (s : St) (m : String) : (writeLog s m).api = s.api := by
  unfold writeLog; split <;> rfl

theorem writeLog_ctorCount (s : St) (m : String) :
    (writeLog s m).ctorCount = s.ctorCount := by
  unfold writeLog; split <;> rfl

theorem writeLog_sent (s : St) (m : String) : (writeLog s m).sent = s.sent := by
  unfold writeLog; split <;> rfl

theorem writeLog_entries (s : St) (m : String) :
    (writeLog s m).entries = s.entries := by
  unfold writeLog; split <;> rfl

theorem writeLog_diskOk (s : St) (m : String) :
    (writeLog s m).diskOk = s.diskOk := by
  unfold writeLog; split <;> rfl

theorem writeLog_now (s : St) (m : String) : (writeLog s m).now = s.now := by
  unfold writeLog; split <;> rfl

theorem logAt_api (l m : String) (d : Option Json) (s : St) :
    (logAt l m d s).api = s.api := by
  unfold logAt; rw [writeLog_api]

theorem logAt_ctorCount (l m : String) (d : Option Json) (s : St) :
    (logAt l m d s).ctorCount = s.ctorCount := by
  unfold logAt; rw [writeLog_ctorCount]

theorem logAt_sent (l m : String) (d : Option Json) (s : St) :
    (logAt l m d s).sent = s.sent := by
  unfold logAt; rw [writeLog_sent]

theorem logAt_entries (l m : String) (d : Option Json) (s : St) :
    (logAt l m d s).entries = s.entries ++ [⟨l, m, d⟩] := by
  unfold logAt; rw [writeLog_entries]

theorem logAt_diskOk (l m : String) (d : Option Json) (s : St) :
    (logAt l m d s).diskOk = s.diskOk := by
  unfold logAt; rw [writeLog_diskOk]

theorem logAt_now (l m : String) (d : Option Json) (s : St) :
    (logAt l m d s).now = s.now := by
  unfold logAt; rw [writeLog_now]

theorem logInfo_eq (m : String) (d : Option Json) (s : St) :
    logInfo m d s = logAt "INFO" m d s := rfl

theorem logError_eq (m : String) (d : Option Json) (s : St) :
    logError m d s = logAt "ERROR" m d s := rfl

theorem logDebug_eq (m : String) (d : Option Json) (s : St) :
    logDebug m d s = logAt "DEBUG" m d s := rfl

theorem newAI302Api_fst (cfg : Config) (k : String) (s : St) :
    (newAI302Api cfg k s).1 = ⟨k, s.ctorCount⟩ := rfl

theorem newAI302Api_api (cfg : Config) (k : String) (s : St) :
    ((newAI302Api cfg k s).2).api = s.api := by
  unfold newAI302Api
  simp [logInfo_eq, logAt_api]

theorem newAI302Api_ctorCount (cfg : Config) (k : String) (s : St) :
    ((newAI302Api cfg k s).2).ctorCount = s.ctorCount + 1 := by
  unfold newAI302Api
  simp [logInfo_eq, logAt_ctorCount]

theorem newAI302Api_sent (cfg : Config) (k : String) (s : St) :
    ((newAI302Api cfg k s).2).sent = s.sent := by
  unfold newAI302Api
  simp [logInfo_eq, logAt_sent]

theorem getApiInstance_fst (cfg : Config) (ro : Option Request) (s : St) :
    (getApiInstance cfg ro s).1 = getApiOutcome cfg ro s.api s.ctorCount := by
  unfold getApiInstance getApiOutcome
  cases hres : resolveApiKey cfg.startKey ro cfg.envKey with
  | none => rfl
  | some k =>
      cases hapi : s.api with
      | none =>
          simp [newAI302Api_fst, logDebug_eq, logAt_ctorCount, newAI302Api]
      | some inst =>
          by_cases hk : inst.apiKey = k
          · simp [hk]
          · simp [hk, newAI302Api_fst, logDebug_eq, logAt_ctorCount, newAI302Api]

theorem getApiInstance_missing (cfg : Config) (ro : Option Request) (s : St)
    (h : resolveApiKey cfg.startKey ro cfg.envKey = none) :
    getApiInstance cfg ro s =
      (.error (.mcp errInvalidParams "API key is required to call the tool"),
       logError "API key is missing" none s) := by
  unfold getApiInstance
  rw [h]

theorem getApiInstance_hit (cfg : Config) (ro : Option Request) (s : St)
    (inst : ApiInst) (k : String)
    (hres : resolveApiKey cfg.startKey ro cfg.envKey = some k)
    (hapi : s.api = some inst) (hk : inst.apiKey = k) :
    getApiInstance cfg ro s = (.ok inst, s) := by
  unfold getApiInstance
  rw [hres, hapi]
  simp [hk]

theorem getApiInstance_miss (cfg : Config) (ro : Option Request) (s : St)
    (k : String)
    (hres : resolveApiKey cfg.startKey ro cfg.envKey = some k)
    (hmiss : ∀ inst, s.api = some inst → inst.apiKey ≠ k) :
    (getApiInstance cfg ro s).1 = .ok ⟨k, s.ctorCount⟩ ∧
    ((getApiInstance cfg ro s).2).api = some (⟨k, s.ctorCount⟩ : ApiInst) ∧
    ((getApiInstance cfg ro s).2).ctorCount = s.ctorCount + 1 := by
  unfold getApiInstance
  rw [hres]
  cases hapi : s.api with
  | none =>
      simp [newAI302Api, logDebug_eq, logInfo_eq, logAt_ctorCount, logAt_api]
  | some inst =>
      have hne := hmiss inst hapi
      simp [hne, newAI302Api, logDebug_eq, logInfo_eq, logAt_ctorCount, logAt_api]

theorem getApiInstance_sent (cfg : Config) (ro : Option Request) (s : St) :
    ((getApiInstance cfg ro s).2).sent = s.sent := by
  unfold getApiInstance
  cases hres : resolveApiKey cfg.startKey ro cfg.envKey with
  | none => simp [logError_eq, logAt_sent]
  | some k =>
      cases hapi : s.api with
      | none =>
          simp [newAI302Api, logDebug_eq, logInfo_eq, logAt_sent]
      | some inst =>
          by_cases hk : inst.apiKey = k
          · simp [hk]
          · simp [hk, newAI302Api, logDebug_eq, logInfo_eq, logAt_sent]

theorem getApiOutcome_ok_key (cfg : Config) (ro : Option Request)
    (api : Option ApiInst) (cnt : Nat) (inst : ApiInst)
    (h : getApiOutcome cfg ro api cnt = .ok inst) :
    resolveApiKey cfg.startKey ro cfg.envKey = some inst.apiKey := by
  unfold getApiOutcome at h
  cases hres : resolveApiKey cfg.startKey ro cfg.envKey with
  | none => rw [hres] at h; exact absurd h (by simp)
  | some k =>
      rw [hres] at h
      cases api with
      | none =>
          have : inst = ⟨k, cnt⟩ := by
            have := h
            simp at this
            exact this.symm
          rw [this]
      | some i =>
          by_cases hk : i.apiKey = k
          · simp [hk] at h
            rw [← h, hk]
          · simp [hk] at h
            rw [← h]

theorem apiListTools_fst (cfg : Config) (inst : ApiInst) (fr : FetchResult)
    (s : St) : (apiListTools cfg inst fr s).1 = listToolsOutcome fr := by
  unfold apiListTools listToolsOutcome
  cases fr with
  | netError m => rfl
  | response r =>
      cases hok : responseOk r with
      | false => simp [hok]
      | true =>
          cases hjr : r.jsonResult with
          | error m => simp [hok, hjr, JsError.message]
          | ok data =>
              cases hgf : getField data "tools" with
              | none => simp [hok, hjr, hgf, JsError.message]
              | some t => cases t <;> simp [hok, hjr, hgf, JsError.message]

theorem apiCallTool_fst (cfg : Config) (inst : ApiInst) (name : String)
    (args : Json) (fr : FetchResult) (s : St) :
    (apiCallTool cfg inst name args fr s).1 = callToolOutcome fr := by
  unfold apiCallTool callToolOutcome
  cases fr with
  | netError m => rfl
  | response r =>
      cases hok : responseOk r with
      | false => simp [hok]
      | true =>
          cases hjr : r.jsonResult with
          | error m => simp [hok, hjr, JsError.message]
          | ok data => simp [hok, hjr]

theorem apiListTools_sent (cfg : Config) (inst : ApiInst) (fr : FetchResult)
    (s : St) :
    ((apiListTools cfg inst fr s).2).sent =
      s.sent ++ [⟨listToolsUrl cfg, "GET", inst.apiKey⟩] := by
  unfold apiListTools
  cases fr with
  | netError m => simp [logDebug_eq, logError_eq, logAt_sent]
  | response r =>
      cases hok : responseOk r with
      | false => simp [hok, logDebug_eq, logError_eq, logAt_sent]
      | true =>
          cases hjr : r.jsonResult with
          | error m => simp [hok, hjr, logDebug_eq, logError_eq, logAt_sent]
          | ok data =>
              cases hgf : getField data "tools" with
              | none =>
                  simp [hok, hjr, hgf, logDebug_eq, logError_eq, logAt_sent]
              | some t =>
                  cases t <;>
                    simp [hok, hjr, hgf, logDebug_eq, logError_eq, logInfo_eq,
                      logAt_sent]

theorem apiCallTool_sent (cfg : Config) (inst : ApiInst) (name : String)
    (args : Json) (fr : FetchResult) (s : St) :
    ((apiCallTool cfg inst name args fr s).2).sent =
      s.sent ++ [⟨cfg.baseUrl ++ "/v1/tool/call", "POST", inst.apiKey⟩] := by
  unfold apiCallTool
  cases fr with
  | netError m => simp [logDebug_eq, logError_eq, logAt_sent]
  | response r =>
      cases hok : responseOk r with
      | false => simp [hok, logDebug_eq, logError_eq, logAt_sent]
      | true =>
          cases hjr : r.jsonResult with
          | error m => simp [hok, hjr, logDebug_eq, logError_eq, logAt_sent]
          | ok data =>
              simp [hok, hjr, logDebug_eq, logError_eq, logInfo_eq, logAt_sent]

theorem apiListTools_logsBody (cfg : Config) (inst : ApiInst)
    (r : HttpResponse) (s : St) (h : responseOk r = false) :
    (⟨"ERROR", "Failed to fetch tools list",
      some (.obj [("status", .num (r.status : Int)),
                  ("statusText", .str r.statusText),
                  ("error", .str r.bodyText)])⟩ : LogEntry) ∈
      ((apiListTools cfg inst (.response r) s).2).entries := by
  unfold apiListTools
  simp [h, logDebug_eq, logError_eq, logAt_entries]

theorem apiCallTool_logsBody (cfg : Config) (inst : ApiInst) (name : String)
    (args : Json) (r : HttpResponse) (s : St) (h : responseOk r = false) :
    (⟨"ERROR", "Tool call failed",
      some (.obj [("name", .str name),
                  ("status", .num (r.status : Int)),
                  ("statusText", .str r.statusText),
                  ("error", .str r.bodyText)])⟩ : LogEntry) ∈
      ((apiCallTool cfg inst name args (.response r) s).2).entries := by
  unfold apiCallTool
  simp [h, logDebug_eq, logError_eq, logAt_entries]

theorem handleListTools_fst (cfg : Config) (ro : Option Request)
    (fr : FetchResult) (s : St) :
    (handleListTools cfg ro fr s).1 =
      match getApiOutcome cfg ro s.api s.ctorCount with
      | .error e => .error e
      | .ok _ =>
          match listToolsOutcome fr with
          | .error e => .error e
          | .ok tools => .ok (.obj [("tools", tools)]) := by
  unfold handleListTools
  dsimp only
  rcases hga : getApiInstance cfg ro
      (logDebug "Handling list tools request" none s) with ⟨res, s1⟩
  have h1 : res = getApiOutcome cfg ro s.api s.ctorCount := by
    have h2 := getApiInstance_fst cfg ro
      (logDebug "Handling list tools request" none s)
    rw [hga] at h2
    simpa [logDebug_eq, logAt_api, logAt_ctorCount] using h2
  rw [← h1]
  cases res with
  | error e => rfl
  | ok api =>
      dsimp only
      rcases hal : apiListTools cfg api fr s1 with ⟨res2, s2⟩
      have h3 : res2 = listToolsOutcome fr := by
        have h4 := apiListTools_fst cfg api fr s1
        rw [hal] at h4
        exact h4
      rw [← h3]
      cases res2 with
      | error e => rfl
      | ok tools => rfl

theorem handleCallTool_fst (cfg : Config) (rq : Request) (fr : FetchResult)
    (s : St) :
    (handleCallTool cfg rq fr s).1 =
      match getApiOutcome cfg (some rq) s.api s.ctorCount with
      | .error e => .error e
      | .ok _ =>
          match callToolOutcome fr with
          | .error e => .error e
          | .ok content =>
              .ok (mcpTextEnvelope
                (jsonStringify2 (Json.obj [("content", content)]))) := by
  unfold handleCallTool
  dsimp only
  rcases hga : getApiInstance cfg (some rq)
      (logDebug "Handling call tool request"
        (some (.obj [("toolName", .str rq.name)])) s) with ⟨res, s1⟩
  have h1 : res = getApiOutcome cfg (some rq) s.api s.ctorCount := by
    have h2 := getApiInstance_fst cfg (some rq)
      (logDebug "Handling call tool request"
        (some (.obj [("toolName", .str rq.name)])) s)
    rw [hga] at h2
    simpa [logDebug_eq, logAt_api, logAt_ctorCount] using h2
  rw [← h1]
  cases res with
  | error e => rfl
  | ok api =>
      dsimp only
      rcases hal : apiCallTool cfg api rq.name rq.args fr s1 with ⟨res2, s2⟩
      have h3 : res2 = callToolOutcome fr := by
        have h4 := apiCallTool_fst cfg api rq.name rq.args fr s1
        rw [hal] at h4
        exact h4
      rw [← h3]
      cases res2 with
      | error e => rfl
      | ok content => rfl

theorem getApiOutcome_ok_of_some (cfg : Config) (ro : Option Request)
    (api : Option ApiInst) (cnt : Nat) (k : String)
    (hres : resolveApiKey cfg.startKey ro cfg.envKey = some k) :
    ∃ inst : ApiInst, getApiOutcome cfg ro api cnt = .ok inst ∧
      inst.apiKey = k := by
  unfold getApiOutcome
  rw [hres]
  cases api with
  | none => exact ⟨⟨k, cnt⟩, rfl, rfl⟩
  | some i =>
      by_cases hk : i.apiKey = k
      · exact ⟨i, by simp [hk], hk⟩
      · exact ⟨⟨k, cnt⟩, by simp [hk], rfl⟩

theorem handleListTools_missing (cfg : Config) (ro : Option Request)
    (fr : FetchResult) (s : St)
    (h : resolveApiKey cfg.startKey ro cfg.envKey = none) :
    handleListTools cfg ro fr s =
      (.error (.mcp errInvalidParams "API key is required to call the tool"),
       logError "API key is missing" none
         (logDebug "Handling list tools request" none s)) := by
  unfold handleListTools
  dsimp only
  rw [getApiInstance_missing cfg ro _ h]

theorem handleCallTool_missing (cfg : Config) (rq : Request)
    (fr : FetchResult) (s : St)
    (h : resolveApiKey cfg.startKey (some rq) cfg.envKey = none) :
    handleCallTool cfg rq fr s =
      (.error (.mcp errInvalidParams "API key is required to call the tool"),
       logError "API key is missing" none
         (logDebug "Handling call tool request"
           (some (.obj [("toolName", .str rq.name)])) s)) := by
  unfold handleCallTool
  dsimp only
  rw [getApiInstance_missing cfg (some rq) _ h]

theorem handleListTools_sent_key (cfg : Config) (ro : Option Request)
    (fr : FetchResult) (s : St) (k : String)
    (hres : resolveApiKey cfg.startKey ro cfg.envKey = some k) :
    ((handleListTools cfg ro fr s).2).sent =
      s.sent ++ [⟨listToolsUrl cfg, "GET", k⟩] := by
  unfold handleListTools
  dsimp only
  rcases hga : getApiInstance cfg ro
      (logDebug "Handling list tools request" none s) with ⟨res, s1⟩
  obtain ⟨inst, hok, hkey⟩ := getApiOutcome_ok_of_some cfg ro
    (logDebug "Handling list tools request" none s).api
    (logDebug "Handling list tools request" none s).ctorCount k hres
  have h1 : res = .ok inst := by
    have h2 := getApiInstance_fst cfg ro
      (logDebug "Handling list tools request" none s)
    rw [hga] at h2
    simp only at h2
    rw [h2, hok]
  subst h1
  have hs1 : s1.sent = s.sent := by
    have h3 := getApiInstance_sent cfg ro
      (logDebug "Handling list tools request" none s)
    rw [hga] at h3
    simpa [logDebug_eq, logAt_sent] using h3
  dsimp only
  rcases hal : apiListTools cfg inst fr s1 with ⟨res2, s2⟩
  have hs2 : s2.sent = s.sent ++ [⟨listToolsUrl cfg, "GET", k⟩] := by
    have h4 := apiListTools_sent cfg inst fr s1
    rw [hal] at h4
    simp only at h4
    rw [h4, hs1, hkey]
  cases res2 with
  | error e => exact hs2
  | ok tools => simpa [logInfo_eq, logAt_sent] using hs2

theorem handleCallTool_sent_key (cfg : Config) (rq : Request)
    (fr : FetchResult) (s : St) (k : String)
    (hres : resolveApiKey cfg.startKey (some rq) cfg.envKey = some k) :
    ((handleCallTool cfg rq fr s).2).sent =
      s.sent ++ [⟨cfg.baseUrl ++ "/v1/tool/call", "POST", k⟩] := by
  unfold handleCallTool
  dsimp only
  rcases hga : getApiInstance cfg (some rq)
      (logDebug "Handling call tool request"
        (some (.obj [("toolName", .str rq.name)])) s) with ⟨res, s1⟩
  obtain ⟨inst, hok, hkey⟩ := getApiOutcome_ok_of_some cfg (some rq)
    (logDebug "Handling call tool request"
      (some (.obj [("toolName", .str rq.name)])) s).api
    (logDebug "Handling call tool request"
      (some (.obj [("toolName", .str rq.name)])) s).ctorCount k hres
  have h1 : res = .ok inst := by
    have h2 := getApiInstance_fst cfg (some rq)
      (logDebug "Handling call tool request"
        (some (.obj [("toolName", .str rq.name)])) s)
    rw [hga] at h2
    simp only at h2
    rw [h2, hok]
  subst h1
  have hs1 : s1.sent = s.sent := by
    have h3 := getApiInstance_sent cfg (some rq)
      (logDebug "Handling call tool request"
        (some (.obj [("toolName", .str rq.name)])) s)
    rw [hga] at h3
    simpa [logDebug_eq, logAt_sent] using h3
  dsimp only
  rcases hal : apiCallTool cfg inst rq.name rq.args fr s1 with ⟨res2, s2⟩
  have hs2 : s2.sent = s.sent ++ [⟨cfg.baseUrl ++ "/v1/tool/call", "POST", k⟩] := by
    have h4 := apiCallTool_sent cfg inst rq.name rq.args fr s1
    rw [hal] at h4
    simp only at h4
    rw [h4, hs1, hkey]
  cases res2 with
  | error e => exact hs2
  | ok content => simpa [logInfo_eq, logAt_sent] using hs2

theorem handleListTools_logsBody (cfg : Config) (ro : Option Request)
    (r : HttpResponse) (s : St) (k : String)
    (hres : resolveApiKey cfg.startKey ro cfg.envKey = some k)
    (hbad : responseOk r = false) :
    (⟨"ERROR", "Failed to fetch tools list",
      some (.obj [("status", .num (r.status : Int)),
                  ("statusText", .str r.statusText),
                  ("error", .str r.bodyText)])⟩ : LogEntry) ∈
      ((handleListTools cfg ro (.response r) s).2).entries := by
  unfold handleListTools
  dsimp only
  rcases hga : getApiInstance cfg ro
      (logDebug "Handling list tools request" none s) with ⟨res, s1⟩
  obtain ⟨inst, hok, hkey⟩ := getApiOutcome_ok_of_some cfg ro
    (logDebug "Handling list tools request" none s).api
    (logDebug "Handling list tools request" none s).ctorCount k hres
  have h1 : res = .ok inst := by
    have h2 := getApiInstance_fst cfg ro
      (logDebug "Handling list tools request" none s)
    rw [hga] at h2
    simp only at h2
    rw [h2, hok]
  subst h1
  dsimp only
  rcases hal : apiListTools cfg inst (.response r) s1 with ⟨res2, s2⟩
  have hmem := apiListTools_logsBody cfg inst r s1 hbad
  rw [hal] at hmem
  simp only at hmem
  cases res2 with
  | error e => exact hmem
  | ok tools =>
      simp only [logInfo_eq, logAt_entries]
      exact List.mem_append_left _ hmem

theorem handleCallTool_logsBody (cfg : Config) (rq : Request)
    (r : HttpResponse) (s : St) (k : String)
    (hres : resolveApiKey cfg.startKey (some rq) cfg.envKey = some k)
    (hbad : responseOk r = false) :
    (⟨"ERROR", "Tool call failed",
      some (.obj [("name", .str rq.name),
                  ("status", .num (r.status : Int)),
                  ("statusText", .str r.statusText),
                  ("error", .str r.bodyText)])⟩ : LogEntry) ∈
      ((handleCallTool cfg rq (.response r) s).2).entries := by
  unfold handleCallTool
  dsimp only
  rcases hga : getApiInstance cfg (some rq)
      (logDebug "Handling call tool request"
        (some (.obj [("toolName", .str rq.name)])) s) with ⟨res, s1⟩
  obtain ⟨inst, hok, hkey⟩ := getApiOutcome_ok_of_some cfg (some rq)
    (logDebug "Handling call tool request"
      (some (.obj [("toolName", .str rq.name)])) s).api
    (logDebug "Handling call tool request"
      (some (.obj [("toolName", .str rq.name)])) s).ctorCount k hres
  have h1 : res = .ok inst := by
    have h2 := getApiInstance_fst cfg (some rq)
      (logDebug "Handling call tool request"
        (some (.obj [("toolName", .str rq.name)])) s)
    rw [hga] at h2
    simp only at h2
    rw [h2, hok]
  subst h1
  dsimp only
  rcases hal : apiCallTool cfg inst rq.name rq.args (.response r) s1
    with ⟨res2, s2⟩
  have hmem := apiCallTool_logsBody cfg inst rq.name rq.args r s1 hbad
  rw [hal] at hmem
  simp only at hmem
  cases res2 with
  | error e => exact hmem
  | ok content =>
      simp only [logInfo_eq, logAt_entries]
      exact List.mem_append_left _ hmem

/-!
Concrete fixtures used by the witnesses below.
-/

/-- Fixture: initial state, nothing cached, writable log file. -/
def st0 : St :=
  ⟨none, 0, [], [], [], [], true, "ENOSPC", "2026-01-01T00:00:00.000Z"⟩

/-- Fixture: configuration with a process-start key and an environment
key. -/
def cfgStart : Config := ⟨some "k-start", some "k-env", "https://api.302.ai/mcp"⟩

/-- Fixture: configuration with no key anywhere. -/
def cfgNone : Config := ⟨none, none, "https://api.302.ai/mcp"⟩

/-- Fixture: a request authenticating with key `k-req`. -/
def reqAuth : Request :=
  ⟨[("302AI_API_KEY", "k-req")], "upscale",
   Json.obj [("url", Json.str "http://x/img.png")]⟩

/-- Fixture: a request with no authenticated values. -/
def reqBare : Request :=
  ⟨[], "upscale", Json.obj [("url", Json.str "http://x/img.png")]⟩

/-- Fixture: HTTP 500 with body `boom`. -/
def resp500 : HttpResponse :=
  ⟨500, "Internal Server Error", "boom",
   .error "Unexpected token b in JSON at position 0"⟩

/-- Fixture: HTTP 200 whose body decodes to the object with field
`result` equal to `ok`. -/
def respResultOk : HttpResponse :=
  ⟨200, "OK", "\x7b\"result\":\"ok\"\x7d",
   .ok (Json.obj [("result", Json.str "ok")])⟩

/-- Fixture: HTTP 200 list response whose `tools` field holds the string
`ab` instead of an array. -/
def respToolsStr : HttpResponse :=
  ⟨200, "OK", "\x7b\"tools\":\"ab\"\x7d",
   .ok (Json.obj [("tools", Json.str "ab")])⟩

/-- Fixture: HTTP 200 list response whose body is an object with no
`tools` field. -/
def respNoTools : HttpResponse := ⟨200, "OK", "\x7b\x7d", .ok (Json.obj [])⟩

/-- Fixture: state with an instance for key `k-start` already cached. -/
def stCached : St :=
  ⟨some ⟨"k-start", 0⟩, 1, [], [], [], [], true, "ENOSPC",
   "2026-01-01T00:00:00.000Z"⟩

/-- C1: credential resolution follows the fixed priority order — a truthy
(non-empty) process-start key wins regardless of the request; otherwise a
truthy authenticated `302AI_API_KEY` value of the supplied request;
otherwise the environment variable — and every instance handed out by
`getApiInstance` carries exactly the key this resolution produced. -/
theorem c1_credential_priority :
    (∀ (sk : String) (ro : Option Request) (env : Option String),
        sk ≠ "" → resolveApiKey (some sk) ro env = some sk) ∧
    (∀ (sk : Option String) (r : Request) (env : Option String) (v : String),
        jsTruthy sk = none → getAuthValue r "302AI_API_KEY" = some v →
        v ≠ "" → resolveApiKey sk (some r) env = some v) ∧
    (∀ (sk : Option String) (ro : Option Request) (env : Option String),
        jsTruthy sk = none →
        jsTruthy (ro.bind fun r => getAuthValue r "302AI_API_KEY") = none →
        resolveApiKey sk ro env = jsTruthy env) ∧
    (∀ (cfg : Config) (ro : Option Request) (s : St) (inst : ApiInst),
        (getApiInstance cfg ro s).1 = .ok inst →
        resolveApiKey cfg.startKey ro cfg.envKey = some inst.apiKey) := by
  refine ⟨?_, ?_, ?_, ?_⟩
  · intro sk ro env h
    simp [resolveApiKey, jsTruthy, h, Option.orElse]
  · intro sk r env v hsk hv hne
    simp only [resolveApiKey, hsk, Option.orElse]
    simp [hv, jsTruthy, hne]
  · intro sk ro env h1 h2
    simp only [resolveApiKey, h1, h2, Option.orElse]
  · intro cfg ro s inst h
    rw [getApiInstance_fst] at h
    exact getApiOutcome_ok_key cfg ro s.api s.ctorCount inst h

/-- Witness for C1 at concrete inputs: the start key beats a differing
request key, a request key beats the environment, the environment is the
last resort, and a concrete `getApiInstance` run hands out the resolved
key. -/
theorem c1_credential_priority_witness :
    resolveApiKey (some "k-start") (some reqAuth) (some "k-env") =
        some "k-start" ∧
    resolveApiKey none (some reqAuth) (some "k-env") = some "k-req" ∧
    resolveApiKey none (some reqBare) (some "k-env") =
        jsTruthy (some "k-env") ∧
    resolveApiKey cfgStart.startKey (some reqAuth) cfgStart.envKey =
        some (ApiInst.mk "k-start" 0).apiKey := by
  refine ⟨?_, ?_, ?_, ?_⟩
  · exact c1_credential_priority.1 "k-start" (some reqAuth) (some "k-env")
      (by decide)
  · exact c1_credential_priority.2.1 none reqAuth (some "k-env") "k-req"
      rfl rfl (by decide)
  · exact c1_credential_priority.2.2.1 none (some reqBare) (some "k-env")
      rfl rfl
  · exact c1_credential_priority.2.2.2 cfgStart (some reqAuth) st0
      ⟨"k-start", 0⟩ rfl

/-- C2: when no candidate credential is truthy, both operations fail with
`InvalidParams` and the message "API key is required to call the tool";
no instance is constructed (cache and construction counter untouched), no
HTTP request is issued (`sent` untouched), and the whole outcome is
independent of the fetch behaviour. -/
theorem c2_missing_credential (cfg : Config) (ro : Option Request)
    (rq : Request) (fr fr' : FetchResult) (s : St)
    (hlist : resolveApiKey cfg.startKey ro cfg.envKey = none)
    (hcall : resolveApiKey cfg.startKey (some rq) cfg.envKey = none) :
    (handleListTools cfg ro fr s).1 =
        .error (.mcp errInvalidParams "API key is required to call the tool") ∧
    (handleCallTool cfg rq fr s).1 =
        .error (.mcp errInvalidParams "API key is required to call the tool") ∧
    ((handleListTools cfg ro fr s).2).sent = s.sent ∧
    ((handleCallTool cfg rq fr s).2).sent = s.sent ∧
    ((handleListTools cfg ro fr s).2).ctorCount = s.ctorCount ∧
    ((handleCallTool cfg rq fr s).2).ctorCount = s.ctorCount ∧
    ((handleListTools cfg ro fr s).2).api = s.api ∧
    ((handleCallTool cfg rq fr s).2).api = s.api ∧
    handleListTools cfg ro fr s = handleListTools cfg ro fr' s ∧
    handleCallTool cfg rq fr s = handleCallTool cfg rq fr' s := by
  have hl := handleListTools_missing cfg ro fr s hlist
  have hl' := handleListTools_missing cfg ro fr' s hlist
  have hc := handleCallTool_missing cfg rq fr s hcall
  have hc' := handleCallTool_missing cfg rq fr' s hcall
  refine ⟨by rw [hl], by rw [hc], ?_, ?_, ?_, ?_, ?_, ?_,
    hl.trans hl'.symm, hc.trans hc'.symm⟩
  · rw [hl]; simp [logError_eq, logDebug_eq, logAt_sent]
  · rw [hc]; simp [logError_eq, logDebug_eq, logAt_sent]
  · rw [hl]; simp [logError_eq, logDebug_eq, logAt_ctorCount]
  · rw [hc]; simp [logError_eq, logDebug_eq, logAt_ctorCount]
  · rw [hl]; simp [logError_eq, logDebug_eq, logAt_api]
  · rw [hc]; simp [logError_eq, logDebug_eq, logAt_api]

/-- Witness for C2: with no key configured anywhere, a concrete list
operation fails with the missing-key error and leaves the sent-request
list empty; its outcome is the same under two different fetch
behaviours. -/
theorem c2_missing_credential_witness :
    (handleListTools cfgNone (some reqBare) (.netError "ECONNREFUSED") st0).1 =
        .error (.mcp errInvalidParams "API key is required to call the tool") ∧
    ((handleListTools cfgNone (some reqBare)
        (.netError "ECONNREFUSED") st0).2).sent = st0.sent ∧
    handleListTools cfgNone (some reqBare) (.netError "ECONNREFUSED") st0 =
      handleListTools cfgNone (some reqBare) (.response resp500) st0 := by
  have h := c2_missing_credential cfgNone (some reqBare) reqBare
    (.netError "ECONNREFUSED") (.response resp500) st0 rfl rfl
  exact ⟨h.1, h.2.2.1, h.2.2.2.2.2.2.2.2.1⟩

/-- C3: the router caches at most one instance (the `api` field is an
`Option`); when the freshly resolved key equals the cached instance's key
the instance is reused and the state is untouched (no construction); when
it differs or nothing is cached, exactly one instance is constructed
(counter bumped by one) and replaces the cache; and the upstream HTTP
request of each operation presents exactly the freshly resolved
credential. -/
theorem c3_instance_cache :
    (∀ (cfg : Config) (ro : Option Request) (s : St) (inst : ApiInst)
        (k : String),
        resolveApiKey cfg.startKey ro cfg.envKey = some k →
        s.api = some inst → inst.apiKey = k →
        getApiInstance cfg ro s = (.ok inst, s)) ∧
    (∀ (cfg : Config) (ro : Option Request) (s : St) (k : String),
        resolveApiKey cfg.startKey ro cfg.envKey = some k →
        (∀ inst, s.api = some inst → inst.apiKey ≠ k) →
        (getApiInstance cfg ro s).1 = .ok ⟨k, s.ctorCount⟩ ∧
        ((getApiInstance cfg ro s).2).api =
          some (⟨k, s.ctorCount⟩ : ApiInst) ∧
        ((getApiInstance cfg ro s).2).ctorCount = s.ctorCount + 1) ∧
    (∀ (cfg : Config) (ro : Option Request) (fr : FetchResult) (s : St)
        (k : String),
        resolveApiKey cfg.startKey ro cfg.envKey = some k →
        ((handleListTools cfg ro fr s).2).sent =
          s.sent ++ [⟨listToolsUrl cfg, "GET", k⟩]) ∧
    (∀ (cfg : Config) (rq : Request) (fr : FetchResult) (s : St)
        (k : String),
        resolveApiKey cfg.startKey (some rq) cfg.envKey = some k →
        ((handleCallTool cfg rq fr s).2).sent =
          s.sent ++ [⟨cfg.baseUrl ++ "/v1/tool/call", "POST", k⟩]) := by
  refine ⟨?_, ?_, ?_, ?_⟩
  · intro cfg ro s inst k hres hapi hk
    exact getApiInstance_hit cfg ro s inst k hres hapi hk
  · intro cfg ro s k hres hmiss
    exact getApiInstance_miss cfg ro s k hres hmiss
  · intro cfg ro fr s k hres
    exact handleListTools_sent_key cfg ro fr s k hres
  · intro cfg rq fr s k hres
    exact handleCallTool_sent_key cfg rq fr s k hres

/-- Witness for C3 at concrete inputs: a cached instance for the resolved
key is reused verbatim; a differing resolved key forces exactly one
construction; the concrete issued request carries the resolved key. -/
theorem c3_instance_cache_witness :
    getApiInstance cfgStart none stCached = (.ok ⟨"k-start", 0⟩, stCached) ∧
    ((getApiInstance ⟨some "k-new", none, "https://api.302.ai/mcp"⟩ none
        stCached).1 = .ok ⟨"k-new", 1⟩ ∧
      ((getApiInstance ⟨some "k-new", none, "https://api.302.ai/mcp"⟩ none
        stCached).2).api = some (⟨"k-new", 1⟩ : ApiInst) ∧
      ((getApiInstance ⟨some "k-new", none, "https://api.302.ai/mcp"⟩ none
        stCached).2).ctorCount = stCached.ctorCount + 1) ∧
    ((handleCallTool cfgStart reqBare (.response respResultOk) st0).2).sent =
      st0.sent ++ [⟨cfgStart.baseUrl ++ "/v1/tool/call", "POST", "k-start"⟩] := by
  refine ⟨?_, ?_, ?_⟩
  · exact c3_instance_cache.1 cfgStart none stCached ⟨"k-start", 0⟩ "k-start"
      rfl rfl rfl
  · refine c3_instance_cache.2.1 ⟨some "k-new", none, "https://api.302.ai/mcp"⟩
      none stCached "k-new" rfl ?_
    intro inst h
    have h2 : inst = (⟨"k-start", 0⟩ : ApiInst) := by
      simpa [stCached] using h.symm
    rw [h2]
    decide
  · exact c3_instance_cache.2.2.2 cfgStart reqBare (.response respResultOk)
      st0 "k-start" rfl

/-- C4: the two request handlers contain no `try`/`catch`; whatever error
the credential resolver (`getApiInstance`) or the client operation raises
is the error the caller receives, with the same kind and the same
message, and a raised error is never turned into a success. -/
theorem c4_error_propagation :
    (∀ (cfg : Config) (ro : Option Request) (fr : FetchResult) (s : St)
        (e : JsError),
        (getApiInstance cfg ro s).1 = .error e →
        (handleListTools cfg ro fr s).1 = .error e) ∧
    (∀ (cfg : Config) (rq : Request) (fr : FetchResult) (s : St)
        (e : JsError),
        (getApiInstance cfg (some rq) s).1 = .error e →
        (handleCallTool cfg rq fr s).1 = .error e) ∧
    (∀ (cfg : Config) (ro : Option Request) (fr : FetchResult) (s : St)
        (inst : ApiInst) (e : JsError),
        (getApiInstance cfg ro s).1 = .ok inst →
        (apiListTools cfg inst fr s).1 = .error e →
        (handleListTools cfg ro fr s).1 = .error e) ∧
    (∀ (cfg : Config) (rq : Request) (fr : FetchResult) (s : St)
        (inst : ApiInst) (e : JsError),
        (getApiInstance cfg (some rq) s).1 = .ok inst →
        (apiCallTool cfg inst rq.name rq.args fr s).1 = .error e →
        (handleCallTool cfg rq fr s).1 = .error e) := by
  refine ⟨?_, ?_, ?_, ?_⟩
  · intro cfg ro fr s e h
    rw [getApiInstance_fst] at h
    rw [handleListTools_fst, h]
  · intro cfg rq fr s e h
    rw [getApiInstance_fst] at h
    rw [handleCallTool_fst, h]
  · intro cfg ro fr s inst e h1 h2
    rw [getApiInstance_fst] at h1
    rw [apiListTools_fst] at h2
    rw [handleListTools_fst, h1, h2]
  · intro cfg rq fr s inst e h1 h2
    rw [getApiInstance_fst] at h1
    rw [apiCallTool_fst] at h2
    rw [handleCallTool_fst, h1, h2]

/-- Witness for C4: a concrete resolver failure and a concrete client
failure each reach the caller verbatim. -/
theorem c4_error_propagation_witness :
    (handleListTools cfgNone (some reqBare) (.netError "boom") st0).1 =
        .error (.mcp errInvalidParams "API key is required to call the tool") ∧
    (handleCallTool cfgStart reqBare (.netError "boom") st0).1 =
        .error (.mcp errInternalError "Tool call failed: boom") := by
  constructor
  · exact c4_error_propagation.1 cfgNone (some reqBare) (.netError "boom")
      st0 (.mcp errInvalidParams "API key is required to call the tool") rfl
  · exact c4_error_propagation.2.2.2 cfgStart reqBare (.netError "boom")
      st0 ⟨"k-start", 0⟩ (.mcp errInternalError "Tool call failed: boom")
      rfl rfl

theorem listToolsOutcome_http (r : HttpResponse)
    (hbad : responseOk r = false) :
    listToolsOutcome (.response r) =
      .error (.mcp errInternalError
        ("Failed to fetch tools: MCP error -32603: HTTP " ++
          toString r.status ++ ": " ++ r.statusText)) := by
  unfold listToolsOutcome
  simp only [hbad, Bool.not_false, if_true]
  congr 2

theorem callToolOutcome_http (r : HttpResponse)
    (hbad : responseOk r = false) :
    callToolOutcome (.response r) =
      .error (.mcp errInternalError
        ("Tool call failed: MCP error -32603: HTTP " ++
          toString r.status ++ ": " ++ r.statusText)) := by
  unfold callToolOutcome
  simp only [hbad, Bool.not_false, if_true]
  congr 2

/-- C5: whenever the upstream responds with a non-success status, both
operations fail with the internal-error kind, and the caller-visible
message carries the decimal status code and the HTTP reason text (for an
HTTP 500 the message contains `500` and the reason text). -/
theorem c5_http_status_error (cfg : Config) (ro : Option Request)
    (rq : Request) (s : St) (r : HttpResponse)
    (hl : (resolveApiKey cfg.startKey ro cfg.envKey).isSome = true)
    (hc : (resolveApiKey cfg.startKey (some rq) cfg.envKey).isSome = true)
    (hbad : responseOk r = false) :
    (handleListTools cfg ro (.response r) s).1 =
      .error (.mcp errInternalError
        ("Failed to fetch tools: MCP error -32603: HTTP " ++
          toString r.status ++ ": " ++ r.statusText)) ∧
    (handleCallTool cfg rq (.response r) s).1 =
      .error (.mcp errInternalError
        ("Tool call failed: MCP error -32603: HTTP " ++
          toString r.status ++ ": " ++ r.statusText)) ∧
    (∃ pre post : String,
      "Failed to fetch tools: MCP error -32603: HTTP " ++
          toString r.status ++ ": " ++ r.statusText =
        pre ++ toString r.status ++ post) ∧
    (∃ pre : String,
      "Failed to fetch tools: MCP error -32603: HTTP " ++
          toString r.status ++ ": " ++ r.statusText = pre ++ r.statusText) ∧
    (∃ pre post : String,
      "Tool call failed: MCP error -32603: HTTP " ++
          toString r.status ++ ": " ++ r.statusText =
        pre ++ toString r.status ++ post) ∧
    (∃ pre : String,
      "Tool call failed: MCP error -32603: HTTP " ++
          toString r.status ++ ": " ++ r.statusText = pre ++ r.statusText) := by
  obtain ⟨k, hk⟩ := Option.isSome_iff_exists.mp hl
  obtain ⟨k2, hk2⟩ := Option.isSome_iff_exists.mp hc
  obtain ⟨inst, hok, -⟩ :=
    getApiOutcome_ok_of_some cfg ro s.api s.ctorCount k hk
  obtain ⟨inst2, hok2, -⟩ :=
    getApiOutcome_ok_of_some cfg (some rq) s.api s.ctorCount k2 hk2
  refine ⟨?_, ?_, ?_, ?_, ?_, ?_⟩
  · rw [handleListTools_fst, hok, listToolsOutcome_http r hbad]
  · rw [handleCallTool_fst, hok2, callToolOutcome_http r hbad]
  · exact ⟨"Failed to fetch tools: MCP error -32603: HTTP ",
      ": " ++ r.statusText, by simp [← String.append_assoc]⟩
  · exact ⟨"Failed to fetch tools: MCP error -32603: HTTP " ++
      toString r.status ++ ": ", by simp [← String.append_assoc]⟩
  · exact ⟨"Tool call failed: MCP error -32603: HTTP ",
      ": " ++ r.statusText, by simp [← String.append_assoc]⟩
  · exact ⟨"Tool call failed: MCP error -32603: HTTP " ++
      toString r.status ++ ": ", by simp [← String.append_assoc]⟩

/-- Witness for C5: upstream HTTP 500 with reason text
`Internal Server Error` and body `boom` yields the concrete
internal-error messages, which contain `500` and the reason text. -/
theorem c5_http_status_error_witness :
    (handleListTools cfgStart none (.response resp500) st0).1 =
      .error (.mcp errInternalError
        ("Failed to fetch tools: MCP error -32603: HTTP " ++
          toString resp500.status ++ ": " ++ resp500.statusText)) ∧
    (handleCallTool cfgStart reqBare (.response resp500) st0).1 =
      .error (.mcp errInternalError
        ("Tool call failed: MCP error -32603: HTTP " ++
          toString resp500.status ++ ": " ++ resp500.statusText)) := by
  have h := c5_http_status_error cfgStart none reqBare st0 resp500
    rfl rfl rfl
  exact ⟨h.1, h.2.1⟩

/-- C6: a successful call operation wraps the upstream result `R` as
`content: [ (type: text, text: t) ]` where `t` is exactly
`JSON.stringify((content: R), null, 2)`. -/
theorem c6_call_envelope (cfg : Config) (rq : Request) (s : St)
    (r : HttpResponse) (data : Json)
    (hc : (resolveApiKey cfg.startKey (some rq) cfg.envKey).isSome = true)
    (hok : responseOk r = true)
    (hjson : r.jsonResult = .ok data) :
    (handleCallTool cfg rq (.response r) s).1 =
      .ok (mcpTextEnvelope (jsonStringify2 (Json.obj [("content", data)]))) := by
  obtain ⟨k, hk⟩ := Option.isSome_iff_exists.mp hc
  obtain ⟨inst, hoka, -⟩ :=
    getApiOutcome_ok_of_some cfg (some rq) s.api s.ctorCount k hk
  rw [handleCallTool_fst, hoka]
  have h : callToolOutcome (.response r) = .ok data := by
    unfold callToolOutcome
    simp [hok, hjson]
  rw [h]

/-- Witness for C6: upstream result `(result: ok)` yields exactly the
claimed two-space-indented text payload. -/
theorem c6_call_envelope_witness :
    (handleCallTool cfgStart reqAuth (.response respResultOk) st0).1 =
      .ok (mcpTextEnvelope
        "\x7b\n  \"content\": \x7b\n    \"result\": \"ok\"\n  \x7d\n\x7d") := by
  have h := c6_call_envelope cfgStart reqAuth st0 respResultOk
    (Json.obj [("result", Json.str "ok")]) rfl rfl rfl
  exact h

/-- C7: `run()` makes a two-way static choice: mode `rest` constructs an
HTTP REST transport bound to `Number(port)` and the endpoint (and no
stdio transport); every other mode constructs the stdio transport (and no
REST transport); the defaults are mode `stdio`, port 9593, endpoint
`/rest`. -/
theorem c7_transport_selection :
    (∀ (pv : PortValue) (e : String),
        runTransport "rest" pv e = .rest (jsToNumber pv) e) ∧
    (∀ (m : String) (pv : PortValue) (e : String), m ≠ "rest" →
        runTransport m pv e = .stdio) ∧
    effMode ⟨none, none, none⟩ = "stdio" ∧
    effPort ⟨none, none, none⟩ = .num 9593 ∧
    effEndpoint ⟨none, none, none⟩ = "/rest" ∧
    runTransport "rest" (.num 9593) "/rest" = .rest (some 9593) "/rest" ∧
    runTransport (effMode ⟨none, none, none⟩) (effPort ⟨none, none, none⟩)
        (effEndpoint ⟨none, none, none⟩) = .stdio := by
  refine ⟨?_, ?_, rfl, rfl, rfl, rfl, rfl⟩
  · intro pv e
    simp [runTransport]
  · intro m pv e h
    simp [runTransport, h]

/-- Witness for C7: a non-rest mode selects the stdio transport. -/
theorem c7_transport_selection_witness :
    runTransport "stdio" (.num 9593) "/rest" = .stdio :=
  c7_transport_selection.2.1 "stdio" (.num 9593) "/rest" (by decide)

/-- C8: a failing log-file append is caught inside `writeLog` and turns
into a console report only; a succeeding append writes the line; and the
caller-visible outcome of both operations is the same whether the log
file is writable or not. -/
theorem c8_log_failure_isolated :
    (∀ (s : St) (m : String), s.diskOk = false →
        writeLog s m =
          { s with console :=
              s.console ++ ["Failed to write log: " ++ s.diskErr] }) ∧
    (∀ (s : St) (m : String), s.diskOk = true →
        writeLog s m = { s with fileLines := s.fileLines ++ [m ++ "\n"] }) ∧
    (∀ (cfg : Config) (ro : Option Request) (fr : FetchResult) (s : St)
        (b : Bool),
        (handleListTools cfg ro fr { s with diskOk := b }).1 =
          (handleListTools cfg ro fr s).1) ∧
    (∀ (cfg : Config) (rq : Request) (fr : FetchResult) (s : St) (b : Bool),
        (handleCallTool cfg rq fr { s with diskOk := b }).1 =
          (handleCallTool cfg rq fr s).1) := by
  refine ⟨?_, ?_, ?_, ?_⟩
  · intro s m h
    simp [writeLog, h]
  · intro s m h
    simp [writeLog, h]
  · intro cfg ro fr s b
    rw [handleListTools_fst, handleListTools_fst]
  · intro cfg rq fr s b
    rw [handleCallTool_fst, handleCallTool_fst]

/-- Witness for C8: with a failing disk the concrete append is reported on
the console only, and a concrete list operation returns the same outcome
with and without a writable log file. -/
theorem c8_log_failure_isolated_witness :
    writeLog { st0 with diskOk := false } "hello" =
      { { st0 with diskOk := false } with
          console := ({ st0 with diskOk := false } : St).console ++
            ["Failed to write log: " ++
              ({ st0 with diskOk := false } : St).diskErr] } ∧
    (handleListTools cfgStart none (.response resp500)
        { st0 with diskOk := false }).1 =
      (handleListTools cfgStart none (.response resp500) st0).1 := by
  constructor
  · exact c8_log_failure_isolated.1 { st0 with diskOk := false } "hello" rfl
  · exact c8_log_failure_isolated.2.2.1 cfgStart none (.response resp500)
      st0 false

/-- C9 counterexample: an HTTP 200 response whose decoded body carries
`tools` as the string `ab` — so the body does not contain a `tools`
array — makes the list operation succeed and return that string
verbatim: no exception is raised, nothing is converted into an
internal error, contradicting the claim at this input. -/
theorem c9_counterexample :
    (handleListTools cfgStart none (.response respToolsStr) st0).1 =
      .ok (Json.obj [("tools", Json.str "ab")]) := by
  rw [handleListTools_fst]
  rfl

/-- C9 (amended): when the success body lacks the `tools` field (absent,
or null), the `length` access raises, the exception is caught, and the
operation fails with an internal error whose message begins
`Failed to fetch tools:` — in particular no undefined value is returned
and nothing escapes uncaught. -/
theorem c9_missing_tools_field (cfg : Config) (ro : Option Request) (s : St)
    (r : HttpResponse) (data : Json)
    (hl : (resolveApiKey cfg.startKey ro cfg.envKey).isSome = true)
    (hok : responseOk r = true)
    (hjson : r.jsonResult = .ok data)
    (htools : getField data "tools" = none ∨
              getField data "tools" = some Json.null) :
    ∃ m : String, (handleListTools cfg ro (.response r) s).1 =
      .error (.mcp errInternalError ("Failed to fetch tools: " ++ m)) := by
  obtain ⟨k, hk⟩ := Option.isSome_iff_exists.mp hl
  obtain ⟨inst, hoka, -⟩ :=
    getApiOutcome_ok_of_some cfg ro s.api s.ctorCount k hk
  rw [handleListTools_fst, hoka]
  rcases htools with h | h
  · refine ⟨"Cannot read properties of undefined (reading 'length')", ?_⟩
    have h2 : listToolsOutcome (.response r) =
        .error (.mcp errInternalError ("Failed to fetch tools: " ++
          "Cannot read properties of undefined (reading 'length')")) := by
      unfold listToolsOutcome
      simp [hok, hjson, h]
    rw [h2]
  · refine ⟨"Cannot read properties of null (reading 'length')", ?_⟩
    have h2 : listToolsOutcome (.response r) =
        .error (.mcp errInternalError ("Failed to fetch tools: " ++
          "Cannot read properties of null (reading 'length')")) := by
      unfold listToolsOutcome
      simp [hok, hjson, h]
    rw [h2]

/-- Witness for the amended C9: a success body with no `tools` field at
all is converted into the caught internal error. -/
theorem c9_missing_tools_field_witness :
    ∃ m : String,
      (handleListTools cfgStart none (.response respNoTools) st0).1 =
        .error (.mcp errInternalError ("Failed to fetch tools: " ++ m)) :=
  c9_missing_tools_field cfgStart none st0 respNoTools (Json.obj [])
    rfl rfl rfl (Or.inl rfl)

/-- C10: on a non-success status the response body text is read and
recorded in the structured error log entry, while the caller-facing
error of both operations is a function of the status and reason text
alone: replacing the body text by any other string leaves the raised
error unchanged. -/
theorem c10_body_logged_not_raised (cfg : Config) (ro : Option Request)
    (rq : Request) (s : St) (r : HttpResponse) (b' : String)
    (hbad : responseOk r = false) :
    ((handleListTools cfg ro (.response r) s).1 =
      (handleListTools cfg ro (.response { r with bodyText := b' }) s).1) ∧
    ((handleCallTool cfg rq (.response r) s).1 =
      (handleCallTool cfg rq (.response { r with bodyText := b' }) s).1) ∧
    (∀ k, resolveApiKey cfg.startKey ro cfg.envKey = some k →
      (⟨"ERROR", "Failed to fetch tools list",
        some (.obj [("status", .num (r.status : Int)),
                    ("statusText", .str r.statusText),
                    ("error", .str r.bodyText)])⟩ : LogEntry) ∈
        ((handleListTools cfg ro (.response r) s).2).entries) ∧
    (∀ k, resolveApiKey cfg.startKey (some rq) cfg.envKey = some k →
      (⟨"ERROR", "Tool call failed",
        some (.obj [("name", .str rq.name),
                    ("status", .num (r.status : Int)),
                    ("statusText", .str r.statusText),
                    ("error", .str r.bodyText)])⟩ : LogEntry) ∈
        ((handleCallTool cfg rq (.response r) s).2).entries) := by
  have hbad' : responseOk { r with bodyText := b' } = false := hbad
  refine ⟨?_, ?_, ?_, ?_⟩
  · rw [handleListTools_fst, handleListTools_fst,
      listToolsOutcome_http r hbad, listToolsOutcome_http _ hbad']
  · rw [handleCallTool_fst, handleCallTool_fst,
      callToolOutcome_http r hbad, callToolOutcome_http _ hbad']
  · intro k hk
    exact handleListTools_logsBody cfg ro r s k hk hbad
  · intro k hk
    exact handleCallTool_logsBody cfg rq r s k hk hbad

/-- Witness for C10: with upstream HTTP 500 and body `boom`, the concrete
caller error is the same as with a different body, and the body is
present in the structured error log entry. -/
theorem c10_body_logged_not_raised_witness :
    ((handleListTools cfgStart none (.response resp500) st0).1 =
      (handleListTools cfgStart none
        (.response { resp500 with bodyText := "other" }) st0).1) ∧
    (⟨"ERROR", "Failed to fetch tools list",
      some (.obj [("status", .num (resp500.status : Int)),
                  ("statusText", .str resp500.statusText),
                  ("error", .str resp500.bodyText)])⟩ : LogEntry) ∈
      ((handleListTools cfgStart none (.response resp500) st0).2).entries := by
  have h := c10_body_logged_not_raised cfgStart none reqBare st0 resp500
    "other" rfl
  exact ⟨h.1, h.2.2.1 "k-start" rfl⟩
